import Mathlib

/-!
Verification development for the War_RoomAI incident-analysis pipeline.

The Lean definitions below are a shallow embedding of the Python sources:
`src/config.py`, `src/anomaly_detector.py`, `src/correlator.py`,
`src/api_service.py`, `src/root_cause.py` and `mock_api_server.py`.
Numeric metric values and timestamps are modelled as rationals, pandas
DataFrames as a record of column names plus typed rows (a nullable cell is an
`Option`), Python exceptions as `Except Unit`, and the network-dependent
behaviour of the recommendation tiers as explicit environment parameters.
-/

namespace WarRoom

/-- Python `abs()` on a rational value, by sign analysis.  Used by
`correlator.correlate` for the time difference of an event pair. -/
def py_abs (q : ℚ) : ℚ := if q < 0 then -q else q

theorem py_abs_eq_abs (q : ℚ) : py_abs q = |q| := by
  unfold py_abs
  split
  · rw [abs_of_neg]; assumption
  · rw [abs_of_nonneg]; exact le_of_not_lt (by assumption)

/-- Python string comparison on the underlying character lists: code-point
lexicographic, with a proper prefix ordered first.  This is the order pandas
uses when `groupby` sorts its group keys. -/
def lexLe : List Char → List Char → Bool
  | [], _ => true
  | _ :: _, [] => false
  | a :: as, b :: bs => if a < b then true else if b < a then false else lexLe as bs

theorem lexLe_total : ∀ l₁ l₂ : List Char, lexLe l₁ l₂ = true ∨ lexLe l₂ l₁ = true
  | [], _ => .inl rfl
  | _ :: _, [] => .inr rfl
  | a :: as, b :: bs => by
    rcases lt_trichotomy a b with h | h | h
    · left; simp [lexLe, h]
    · subst h
      simpa [lexLe, lt_irrefl] using lexLe_total as bs
    · right; simp [lexLe, h]

theorem lexLe_trans : ∀ l₁ l₂ l₃ : List Char,
    lexLe l₁ l₂ = true → lexLe l₂ l₃ = true → lexLe l₁ l₃ = true
  | [], _, _ => fun _ _ => rfl
  | _ :: _, [], _ => fun h _ => by simp [lexLe] at h
  | _ :: _, _ :: _, [] => fun _ h => by simp [lexLe] at h
  | a :: as, b :: bs, c :: cs => fun h₁ h₂ => by
    rcases lt_trichotomy a b with hab | hab | hab
    · rcases lt_trichotomy b c with hbc | hbc | hbc
      · simp [lexLe, hab.trans hbc]
      · subst hbc; simp [lexLe, hab]
      · simp [lexLe, lt_asymm hbc, hbc] at h₂
    · subst hab
      simp only [lexLe, lt_irrefl, if_false] at h₁
      rcases lt_trichotomy a c with hbc | hbc | hbc
      · simp [lexLe, hbc]
      · subst hbc
        simp only [lexLe, lt_irrefl, if_false] at h₂ ⊢
        exact lexLe_trans as bs cs h₁ h₂
      · simp [lexLe, lt_asymm hbc, hbc] at h₂
    · simp [lexLe, lt_asymm hab, hab] at h₁

/-- Python `<=` on strings, as a relation usable by `List.insertionSort`. -/
def py_str_le (a b : String) : Prop := lexLe a.data b.data = true

instance : DecidableRel py_str_le := fun _ _ => inferInstanceAs (Decidable (_ = true))

instance : IsTotal String py_str_le := ⟨fun a b => lexLe_total a.data b.data⟩

instance : IsTrans String py_str_le := ⟨fun a b c => lexLe_trans a.data b.data c.data⟩

/-- Python truthiness filter for an optional string: `None` and the empty
string are falsy.  Models the `if value:` guards around tier results in
`api_service.py`. -/
def py_truthy_str : Option String → Option String
  | some s => if s = "" then none else some s
  | none => none

theorem py_truthy_str_ne_empty {o : Option String} {s : String}
    (h : py_truthy_str o = some s) : s ≠ "" := by
  cases o with
  | none => simp [py_truthy_str] at h
  | some v =>
    by_cases hv : v = "" <;> simp [py_truthy_str, hv] at h
    intro hs
    exact hv (by rw [h, hs])

/-! ## config.py -/

/-- One entry of the threshold table: either a scalar threshold or a
per-service mapping (`config.thresholds`, lines 21 to 28). -/
inductive ThresholdEntry where
  | scalar : ℚ → ThresholdEntry
  | perService : List (String × ℚ) → ThresholdEntry
deriving DecidableEq

/-- The configured threshold table from `config.py`. -/
def thresholds : List (String × ThresholdEntry) :=
  [("cpu_pct", .scalar 85),
   ("latency_ms", .perService [("frontend", 350), ("api", 350), ("database", 200)])]

/-- `config.correlation_window` (seconds). -/
def correlation_window : ℚ := 5

/-- The static fallback table `config.recommendations`. -/
def recommendations : List (String × String) :=
  [("api", "Check API latency and backend dependencies. Possible timeout or overload."),
   ("database", "Database CPU or query latency spikes — consider indexing or connection pooling."),
   ("frontend", "Frontend response time high — check for slow API calls or JavaScript rendering bottlenecks.")]

/-- `config.get_threshold`, generalised over the table it reads (the Python
function reads the module-level `thresholds`).  Returns `.error ()` exactly
where the Python raises `ValueError` (dict-valued entry queried with
`service=None`); an unknown metric yields `.ok none`. -/
def get_threshold (tbl : List (String × ThresholdEntry)) (metric_name : String)
    (service : Option String) : Except Unit (Option ℚ) :=
  match tbl.lookup metric_name with
  | none => .ok none
  | some (.perService per) =>
    match service with
    | none => .error ()
    | some s => .ok (per.lookup s)
  | some (.scalar t) => .ok (some t)

/-- `config.get_recommendation`: dictionary lookup with a default message. -/
def get_recommendation (service : String) : String :=
  match recommendations.lookup service with
  | some rec => rec
  | none => "No predefined recommendation available for this service."

/-! ## anomaly_detector.py -/

/-- One metric record; every cell may be null (pandas NaN / None). -/
structure MetricRow where
  time_stamp : Option ℚ
  service : Option String
  metric_name : Option String
  value : Option ℚ
deriving DecidableEq

/-- A metrics DataFrame: its column labels plus its rows. -/
structure MetricDF where
  cols : List String
  rows : List MetricRow
deriving DecidableEq

def metricRequiredCols : List String := ["time_stamp", "service", "metric_name", "value"]

/-- The per-row body of `anomaly_detector.metric_anomaly` (lines 70 to 98):
skip the row when `metric_name`, `value` or `service` is null, skip when no
threshold resolves, otherwise keep the row iff `value > threshold_value`
(strict).  A `get_threshold` error would be caught by the per-row handler and
the row skipped; `service` is always non-null here, so that branch is dead. -/
def row_is_anomaly (tbl : List (String × ThresholdEntry)) (r : MetricRow) : Bool :=
  match r.metric_name, r.value, r.service with
  | some m, some v, some s =>
    match get_threshold tbl m (some s) with
    | .ok (some t) => decide (t < v)
    | _ => false
  | _, _, _ => false

/-- `anomaly_detector.metric_anomaly`: empty input short-circuits before the
required-column validation; a non-empty input missing a required column
raises `ValueError` (modelled `.error ()`); otherwise the anomalous rows are
returned in input order. -/
def metric_anomaly (tbl : List (String × ThresholdEntry)) (df : MetricDF) :
    Except Unit (List MetricRow) :=
  if df.rows.isEmpty then .ok []
  else if metricRequiredCols.all (fun c => df.cols.contains c) then
    .ok (df.rows.filter (row_is_anomaly tbl))
  else .error ()

/-! ## correlator.py -/

/-- One log record; every cell may be null. -/
structure LogRow where
  timestamp : Option ℚ
  level : Option String
  message : Option String
  service : Option String
deriving DecidableEq

/-- A log DataFrame. -/
structure LogDF where
  cols : List String
  rows : List LogRow
deriving DecidableEq

/-- One correlation record as built in `correlator.correlate` line 130. -/
structure Correlation where
  timestamp : ℚ
  metric_service : Option String
  metric_name : Option String
  metric_value : Option ℚ
  log_service : Option String
  log_message : Option String
  time_diff_seconds : ℚ
deriving DecidableEq

/-- The record emitted for a qualifying pair: metric timestamp is the
reference, and the time difference is recorded. -/
def mkCorrelation (m : MetricRow) (l : LogRow) (mt lt : ℚ) : Correlation :=
  { timestamp := mt
    metric_service := m.service
    metric_name := m.metric_name
    metric_value := m.value
    log_service := l.service
    log_message := l.message
    time_diff_seconds := py_abs (mt - lt) }

/-- The nested pairwise loop of `correlate` (lines 100 to 154): for each
metric row with a non-null timestamp, scan all log rows with a non-null
timestamp and emit a record iff `abs(Δt) <= window`. -/
def pairCorrelations (window : ℚ) (ms : List MetricRow) (ls : List LogRow) :
    List Correlation :=
  ms.flatMap fun m =>
    match m.time_stamp with
    | none => []
    | some mt =>
      ls.filterMap fun l =>
        match l.timestamp with
        | none => none
        | some lt =>
          if py_abs (mt - lt) ≤ window then some (mkCorrelation m l mt lt) else none

def corrMetricCols : List String := ["time_stamp", "service", "metric_name", "value"]

def corrLogCols : List String := ["timestamp", "service", "message"]

/-- `correlator.correlate`: either empty input short-circuits to an empty
result before column validation; missing required columns raise `ValueError`;
otherwise the pairwise scan runs. -/
def correlate (window : ℚ) (metric_anomalies : MetricDF) (log_anomalies : LogDF) :
    Except Unit (List Correlation) :=
  if metric_anomalies.rows.isEmpty then .ok []
  else if log_anomalies.rows.isEmpty then .ok []
  else if corrMetricCols.all (fun c => metric_anomalies.cols.contains c) then
    if corrLogCols.all (fun c => log_anomalies.cols.contains c) then
      .ok (pairCorrelations window metric_anomalies.rows log_anomalies.rows)
    else .error ()
  else .error ()

/-! ## api_service.py -/

/-- A response that reached the HTTP-success path of `_make_request`.  The
`body` field models the subsequent JSON handling in `get_recommendations`:
`.error ()` for an unparseable body, `.ok none` for a body without a
`recommendation` field, `.ok (some rec)` for a usable body. -/
structure ApiResponse where
  body : Except Unit (Option String)

/-- Observable outcome of `RecommendationsAPI._make_request`: how many
requests were issued, how many inter-attempt sleeps happened, and the final
response (`none` models raising `APIError` after exhausting all attempts). -/
structure MakeRequestResult where
  attempts : Nat
  sleeps : Nat
  result : Option ApiResponse

/-- The retry loop of `_make_request` (lines 71 to 112): `i` is the index of
the current attempt, the `Nat` argument the number of attempts still allowed
after it.  Every failure kind (timeout, connection error, HTTP error, other)
is handled identically, so an attempt outcome is just `Option ApiResponse`.
A sleep of `retry_delay` happens after each failed attempt except the last. -/
def make_request_loop (outcome : Nat → Option ApiResponse) (i : Nat) :
    Nat → MakeRequestResult
  | 0 => { attempts := 1, sleeps := 0, result := outcome i }
  | remaining + 1 =>
    match outcome i with
    | some resp => { attempts := 1, sleeps := 0, result := some resp }
    | none =>
      let rest := make_request_loop outcome (i + 1) remaining
      { attempts := rest.attempts + 1, sleeps := rest.sleeps + 1, result := rest.result }

/-- `RecommendationsAPI._make_request` with `retry_attempts` additional
attempts allowed beyond the first. -/
def make_request (retry_attempts : Nat) (outcome : Nat → Option ApiResponse) :
    MakeRequestResult :=
  make_request_loop outcome 0 retry_attempts

/-- `RecommendationsAPI.get_recommendations` (lines 119 to 180): on a
transport-level failure of all attempts, re-raise when fallback is disabled,
else return `None`; on success, a parse failure or a missing field also
yields `None`. -/
def get_recommendations (fallback_enabled : Bool) (retry_attempts : Nat)
    (outcome : Nat → Option ApiResponse) : Except Unit (Option String) :=
  match (make_request retry_attempts outcome).result with
  | some resp =>
    match resp.body with
    | .ok (some rec) => .ok (some rec)
    | .ok none => .ok none
    | .error _ => .ok none
  | none => if fallback_enabled then .ok none else .error ()

/-- Which tier supplied the recommendation text. -/
inductive Tier where
  | remote
  | llm
  | localCfg
deriving DecidableEq

/-- Environment for `get_recommendation_with_fallback`: whether `llm_only`
mode is set, what the REMOTE call produces for a given service and anomaly
count (`.error ()` models any exception escaping `get_recommendations`), and
what `LLMProvider.recommend` returns (it never raises: it catches internally
and returns `None`). -/
structure ResolverEnv where
  llm_only : Bool
  remote : String → Nat → Except Unit (Option String)
  llm : String → Nat → Option String

/-- `api_service.get_recommendation_with_fallback` (lines 321 to 373):
REMOTE (unless llm-only), then LLM, then the local table.  The `if result:`
truthiness guards are `py_truthy_str`. -/
def get_recommendation_with_fallback (env : ResolverEnv) (service : String)
    (anomaly_count : Nat) : String :=
  let api_rec : Option String :=
    if env.llm_only then none
    else
      match env.remote service anomaly_count with
      | .ok o => py_truthy_str o
      | .error _ => none
  match api_rec with
  | some rec => rec
  | none =>
    match py_truthy_str (env.llm service anomaly_count) with
    | some rec => rec
    | none => get_recommendation service

/-- Which branch of `get_recommendation_with_fallback` produces the result. -/
def resolutionTier (env : ResolverEnv) (service : String) (anomaly_count : Nat) : Tier :=
  let api_rec : Option String :=
    if env.llm_only then none
    else
      match env.remote service anomaly_count with
      | .ok o => py_truthy_str o
      | .error _ => none
  match api_rec with
  | some _ => Tier.remote
  | none =>
    match py_truthy_str (env.llm service anomaly_count) with
    | some _ => Tier.llm
    | none => Tier.localCfg

/-- One element of the `services_data` list handed to the bulk resolver: a
dictionary whose keys are read with `.get`, hence all optional. -/
structure SvcData where
  service : Option String
  anomaly_count : Option Nat
  metric_name : Option String
  metric_value : Option ℚ
deriving DecidableEq

/-- Environment for the bulk resolver.  `remote_bulk` is what the attempted
bulk REMOTE call produces; in the source that call is
`RecommendationsAPI().get_bulk_recommendations(...)`, and since
`get_bulk_recommendations` is defined on `LLMProvider` rather than on
`RecommendationsAPI`, the attribute access raises `AttributeError`, i.e. the
faithful instantiation is `.error ()`. -/
structure BulkEnv where
  llm_only : Bool
  remote_bulk : Except Unit (List (String × String))
  llm : SvcData → Option String

/-- `api_service.get_bulk_recommendations_with_fallback` (lines 376 to 433):
try the bulk REMOTE call and return its result when it is a non-empty
mapping; otherwise run a per-service LLM pass and return its result when
non-empty; otherwise fall back to the local table for every service with a
truthy name.  Result mappings are modelled as association lists in insertion
order. -/
def get_bulk_recommendations_with_fallback (env : BulkEnv)
    (services_data : List SvcData) : List (String × String) :=
  let api_recs : List (String × String) :=
    if env.llm_only then []
    else
      match env.remote_bulk with
      | .ok recs => recs
      | .error _ => []
  if api_recs.isEmpty then
    let results : List (String × String) :=
      services_data.filterMap fun item =>
        match item.service with
        | none => none
        | some s =>
          if s = "" then none
          else (py_truthy_str (env.llm item)).map (fun rec => (s, rec))
    if results.isEmpty then
      services_data.filterMap fun sd =>
        match sd.service with
        | none => none
        | some s => if s = "" then none else some (s, get_recommendation s)
    else results
  else api_recs

/-! ## root_cause.py -/

/-- pandas `groupby(metric_service).size()` with the default `sort=True`:
the distinct keys in ascending code-point order, each with its number of
occurrences.  Null keys are dropped by pandas and are filtered out by the
caller. -/
def groupby_size (keys : List String) : List (String × Nat) :=
  (keys.dedup.insertionSort py_str_le).map (fun s => (s, keys.count s))

/-- Descending order on the `anomaly_count` component. -/
def by_count_desc : (String × Nat) → (String × Nat) → Prop := fun a b => b.2 ≤ a.2

instance : DecidableRel by_count_desc := fun a b => Nat.decLe b.2 a.2

instance : IsTotal (String × Nat) by_count_desc := ⟨fun a b => Nat.le_total b.2 a.2⟩

instance : IsTrans (String × Nat) by_count_desc :=
  ⟨fun _ _ _ hab hbc => Nat.le_trans hbc hab⟩

/-- pandas `sort_values(by=anomaly_count, ascending=False)` with the default
`kind='quicksort'`.  NumPy quicksort is not stable, so the program specifies
the relative order of equal counts only where quicksort degenerates to its
small-array insertion sort; this embedding refines the unspecified tie order
to a stable insertion sort.  Theorems quantified over all inputs therefore
use this definition only for conclusions that hold for every comparison sort
(the output is a permutation of its input, ordered by descending count);
concrete tie-order facts are stated only at small inputs, where NumPy
provably runs the stable insertion sort this models. -/
def sort_by_count_desc (l : List (String × Nat)) : List (String × Nat) :=
  l.insertionSort by_count_desc

/-- Lines 82 to 84 of `analyze_root_cause`: group the correlation rows by
`metric_service`, count each group, order by descending count. -/
def service_rankings (rows : List Correlation) : List (String × Nat) :=
  sort_by_count_desc (groupby_size (rows.filterMap (fun r => r.metric_service)))

/-- The `summary_stats` dictionary.  The two `Option` fields model keys that
are present only on the non-empty path. -/
structure SummaryStats where
  total_correlations : Nat
  services_affected : Nat
  metrics_involved : Nat
  most_problematic_service : Option String
  highest_anomaly_count : Option Nat
deriving DecidableEq

/-- The dictionary returned by `analyze_root_cause`; `recs` holds, per
service, the recommendation text and the anomaly count. -/
structure RootCauseResult where
  service_rankings : List (String × Nat)
  recs : List (String × String × Nat)
  summary_stats : SummaryStats
deriving DecidableEq

/-- A correlation DataFrame as consumed by `analyze_root_cause`. -/
structure CorrDF where
  cols : List String
  rows : List Correlation
deriving DecidableEq

def rootCauseRequiredCols : List String :=
  ["metric_service", "metric_name", "log_service", "log_message"]

/-- `root_cause.analyze_root_cause`: the empty input short-circuits to the
sentinel result before column validation; missing required columns raise
`ValueError`; otherwise services are ranked and resolved one by one through
`get_recommendation_with_fallback` (whose per-call metric context only
affects the environment outcomes, which `env` already fixes). -/
def analyze_root_cause (env : ResolverEnv) (df : CorrDF) : Except Unit RootCauseResult :=
  if df.rows.isEmpty then
    .ok { service_rankings := []
          recs := []
          summary_stats :=
            { total_correlations := 0
              services_affected := 0
              metrics_involved := 0
              most_problematic_service := none
              highest_anomaly_count := none } }
  else if rootCauseRequiredCols.all (fun c => df.cols.contains c) then
    let rankings := service_rankings df.rows
    .ok { service_rankings := rankings
          recs := rankings.map fun p =>
            (p.1, get_recommendation_with_fallback env p.1 p.2, p.2)
          summary_stats :=
            { total_correlations := df.rows.length
              services_affected := rankings.length
              metrics_involved := (df.rows.map (fun r => r.metric_name)).dedup.length
              most_problematic_service := rankings.head?.map (fun p => p.1)
              highest_anomaly_count := rankings.head?.map (fun p => p.2) } }
  else .error ()

/-- Python `str.capitalize`: first character upper-cased, the rest lowered. -/
def py_capitalize (s : String) : String :=
  match s.data with
  | [] => ""
  | c :: cs => String.mk (c.toUpper :: cs.map Char.toLower)

/-- The report body built by `generate_incident_report` on the non-empty
path (lines 246 to 268); `now` stands for the wall-clock analysis time. -/
def renderIncidentReport (now : String) (res : RootCauseResult) : String :=
  String.intercalate "\n"
    (["=== WAR ROOM AI INCIDENT REPORT ===",
      "Analysis Time: " ++ now,
      "Total Correlations: " ++ toString res.summary_stats.total_correlations,
      "Services Affected: " ++ toString res.summary_stats.services_affected,
      ""]
     ++ (match res.summary_stats.most_problematic_service with
         | some svc =>
           if svc = "" then []
           else ["MOST PROBLEMATIC SERVICE:",
                 "  Service: " ++ svc,
                 "  Anomaly Count: " ++ toString (res.summary_stats.highest_anomaly_count.getD 0),
                 ""]
         | none => [])
     ++ ["SERVICE RANKINGS:"]
     ++ res.service_rankings.map (fun p => "  " ++ p.1 ++ ": " ++ toString p.2 ++ " anomalies")
     ++ ["", "RECOMMENDATIONS:"]
     ++ res.recs.map (fun t => "  " ++ py_capitalize t.1 ++ ": " ++ t.2.1))

/-- `root_cause.generate_incident_report`: the empty input returns the fixed
sentinel string before any analysis; an analysis error is caught and reported
as an error string (whose Python form interpolates the exception text). -/
def generate_incident_report (env : ResolverEnv) (now : String) (df : CorrDF) : String :=
  if df.rows.isEmpty then "No incidents detected - system operating normally."
  else
    match analyze_root_cause env df with
    | .ok res => renderIncidentReport now res
    | .error _ => "Error generating incident report: " ++ "Missing required columns"

/-! ## mock_api_server.py -/

/-- The `severity` field of the single-service response (line 107): a
three-valued chained conditional with no very-low branch. -/
def mock_severity (anomaly_count : Int) : String :=
  if anomaly_count ≥ 10 then "high"
  else if anomaly_count ≥ 5 then "medium"
  else "low"

/-- Which of the four per-service recommendation strings is selected
(lines 90 to 97); the source comments label the indices high, medium, low
and very-low severity. -/
def mock_rec_index (anomaly_count : Int) : Nat :=
  if anomaly_count ≥ 10 then 0
  else if anomaly_count ≥ 5 then 1
  else if anomaly_count ≥ 2 then 2
  else 3

/-- Numeric rank of a severity label, for stating monotonicity. -/
def severityRank (s : String) : Nat :=
  if s = "high" then 2 else if s = "medium" then 1 else 0

/-! ## Concrete data used by witnesses and counterexamples -/

/-- A metric anomaly at t=100s for the scenario in spec §8. -/
def c1_metric_row : MetricRow :=
  { time_stamp := some 100, service := some "api", metric_name := some "cpu_pct", value := some 90 }

/-- A log error at t=105s: exactly `correlation_window` away from the metric
anomaly above. -/
def c1_log_row : LogRow :=
  { timestamp := some 105, level := some "ERROR", message := some "timeout", service := some "api" }

def c1_mdf : MetricDF :=
  { cols := ["time_stamp", "service", "metric_name", "value"], rows := [c1_metric_row] }

def c1_ldf : LogDF :=
  { cols := ["timestamp", "level", "message", "service"], rows := [c1_log_row] }

/-- A cpu_pct reading of 90 against the configured threshold 85. -/
def c2_row : MetricRow :=
  { time_stamp := some 100, service := some "api", metric_name := some "cpu_pct", value := some 90 }

def c2_df : MetricDF := { cols := metricRequiredCols, rows := [c2_row] }

/-- A metric with no entry in the threshold table. -/
def c9_row : MetricRow :=
  { time_stamp := some 100, service := some "api", metric_name := some "memory_pct", value := some 99 }

def c9_df : MetricDF := { cols := metricRequiredCols, rows := [c9_row] }

/-- One correlation attributed to metric service `b`. -/
def c5_corr_b : Correlation :=
  { timestamp := 0, metric_service := some "b", metric_name := some "cpu_pct",
    metric_value := some 0, log_service := some "b", log_message := some "err",
    time_diff_seconds := 0 }

/-- One correlation attributed to metric service `a`. -/
def c5_corr_a : Correlation :=
  { timestamp := 0, metric_service := some "a", metric_name := some "cpu_pct",
    metric_value := some 0, log_service := some "a", log_message := some "err",
    time_diff_seconds := 0 }

/-- Service `b` occurs first in the input, service `a` second; both have one
correlation each. -/
def c5_rows : List Correlation := [c5_corr_b, c5_corr_a]

def c6_services : List SvcData :=
  [{ service := some "a", anomaly_count := some 3, metric_name := none, metric_value := none },
   { service := some "b", anomaly_count := some 2, metric_name := none, metric_value := none }]

/-- An LLM pass that resolves service `a` only. -/
def c6_llm (item : SvcData) : Option String :=
  if item.service = some "a" then some "Scale out service a." else none

def c6_env : BulkEnv := { llm_only := false, remote_bulk := .error (), llm := c6_llm }

def c6w_services : List SvcData :=
  [{ service := some "api", anomaly_count := some 1, metric_name := none, metric_value := none }]

/-- Bulk environment in which every tier above LOCAL fails. -/
def c6w_env : BulkEnv := { llm_only := false, remote_bulk := .error (), llm := fun _ => none }

/-! ## Helper lemmas -/

theorem lookup_val_mem : ∀ {l : List (String × String)} {s v : String},
    l.lookup s = some v → v ∈ l.map Prod.snd
  | [], _, _ => fun h => by simp [List.lookup] at h
  | (k, b) :: es, s, v => fun h => by
    simp only [List.lookup] at h
    cases hk : (s == k) with
    | true => rw [hk] at h; simp at h; subst h; simp
    | false =>
      rw [hk] at h
      simp only [List.map, List.mem_cons]
      exact Or.inr (lookup_val_mem h)

theorem get_recommendation_ne_empty (service : String) : get_recommendation service ≠ "" := by
  unfold get_recommendation
  cases h : recommendations.lookup service with
  | none => decide
  | some rec =>
    have hv := lookup_val_mem h
    intro hrec
    subst hrec
    revert hv
    decide

theorem time_diff_le_of_mem {window : ℚ} {ms : List MetricRow} {ls : List LogRow}
    {c : Correlation} (hc : c ∈ pairCorrelations window ms ls) :
    c.time_diff_seconds ≤ window := by
  unfold pairCorrelations at hc
  rw [List.mem_flatMap] at hc
  obtain ⟨m, _, hcm⟩ := hc
  split at hcm
  · exact absurd hcm (List.not_mem_nil c)
  · rw [List.mem_filterMap] at hcm
    obtain ⟨l, _, heq⟩ := hcm
    split at heq
    · cases heq
    · split at heq
      next hw =>
        injection heq with h
        subst h
        exact hw
      next => cases heq

/-! ## Claim theorems -/

/-- C10: for an empty input batch the anomaly detector returns an empty
anomaly set before the required-column validation runs, so an empty batch
never triggers the missing-required-fields failure even when the required
columns are absent. -/
theorem C10_empty_batch_short_circuits (tbl : List (String × ThresholdEntry))
    (cols : List String) :
    metric_anomaly tbl { cols := cols, rows := [] } = .ok [] := rfl

/-- C8: for an empty correlation input, root-cause analysis returns the
sentinel no-incident result (empty ranking, no recommendations, zeroed
stats) and report assembly returns the fixed no-incident string; neither
raises. -/
theorem C8_no_incident_sentinel (env : ResolverEnv) (now : String) (cols : List String) :
    analyze_root_cause env { cols := cols, rows := [] } =
      .ok { service_rankings := []
            recs := []
            summary_stats :=
              { total_correlations := 0, services_affected := 0, metrics_involved := 0,
                most_problematic_service := none, highest_anomaly_count := none } } ∧
    generate_incident_report env now { cols := cols, rows := [] } =
      "No incidents detected - system operating normally." :=
  ⟨rfl, rfl⟩

/-- C2: a metric record with a resolved threshold t is classified as an
anomaly by the detector iff its value v satisfies t < v (strict); a value
equal to its threshold is never an anomaly. -/
theorem C2_strict_threshold (tbl : List (String × ThresholdEntry)) (r : MetricRow)
    (m s : String) (v t : ℚ)
    (hm : r.metric_name = some m) (hv : r.value = some v) (hs : r.service = some s)
    (ht : get_threshold tbl m (some s) = .ok (some t)) :
    row_is_anomaly tbl r = decide (t < v) ∧
    (v = t → row_is_anomaly tbl r = false) ∧
    ∀ df : MetricDF, metricRequiredCols.all (fun c => df.cols.contains c) = true →
      r ∈ df.rows →
        metric_anomaly tbl df = .ok (df.rows.filter (row_is_anomaly tbl)) ∧
        (r ∈ df.rows.filter (row_is_anomaly tbl) ↔ t < v) := by
  have hb : row_is_anomaly tbl r = decide (t < v) := by
    simp only [row_is_anomaly, hm, hv, hs, ht]
  refine ⟨hb, ?_, ?_⟩
  · intro hvt
    subst hvt
    simp [hb, lt_irrefl]
  · intro df hcols hr
    constructor
    · obtain ⟨cols, rows⟩ := df
      cases rows with
      | nil => exact absurd hr (List.not_mem_nil r)
      | cons a l => simp_all [metric_anomaly]
    · rw [List.mem_filter]
      simp [hr, hb]

/-- C9: a record whose metric_name, value or service is missing, or whose
threshold does not resolve, is skipped without raising: it contributes no
anomaly, the whole batch still succeeds with the remaining rows filtered as
usual, and `get_threshold` cannot raise when a service is supplied. -/
theorem C9_detector_skips (tbl : List (String × ThresholdEntry)) (df : MetricDF)
    (r : MetricRow)
    (hcols : metricRequiredCols.all (fun c => df.cols.contains c) = true)
    (hr : r ∈ df.rows)
    (hskip : r.metric_name = none ∨ r.value = none ∨ r.service = none ∨
      ∃ m s, r.metric_name = some m ∧ r.service = some s ∧
        get_threshold tbl m (some s) = .ok none) :
    row_is_anomaly tbl r = false ∧
    metric_anomaly tbl df = .ok (df.rows.filter (row_is_anomaly tbl)) ∧
    r ∉ df.rows.filter (row_is_anomaly tbl) ∧
    ∀ (m s : String), get_threshold tbl m (some s) ≠ .error () := by
  have hfalse : row_is_anomaly tbl r = false := by
    rcases hskip with h | h | h | ⟨m, s, hm, hs, hth⟩
    · simp [row_is_anomaly, h]
    · cases hmn : r.metric_name <;> simp [row_is_anomaly, hmn, h]
    · cases hmn : r.metric_name <;> cases hvv : r.value <;>
        simp [row_is_anomaly, hmn, hvv, h]
    · cases hvv : r.value <;> simp [row_is_anomaly, hm, hs, hvv, hth]
  refine ⟨hfalse, ?_, ?_, ?_⟩
  · obtain ⟨cols, rows⟩ := df
    cases rows with
    | nil => exact absurd hr (List.not_mem_nil r)
    | cons a l => simp_all [metric_anomaly]
  · rw [List.mem_filter]
    simp [hfalse]
  · intro m s h
    unfold get_threshold at h
    split at h
    · cases h
    · split at h <;> simp_all
    · cases h

/-- C9 witness: a record for an unconfigured metric is skipped while the
batch succeeds. -/
theorem C9_detector_skips_witness :
    row_is_anomaly thresholds c9_row = false ∧
    metric_anomaly thresholds c9_df = .ok (c9_df.rows.filter (row_is_anomaly thresholds)) ∧
    c9_row ∉ c9_df.rows.filter (row_is_anomaly thresholds) := by
  have h := C9_detector_skips thresholds c9_df c9_row (by decide) (by simp [c9_df])
    (Or.inr (Or.inr (Or.inr ⟨"memory_pct", "api", rfl, rfl, rfl⟩)))
  exact ⟨h.1, h.2.1, h.2.2.1⟩

/-- C2 witness: cpu_pct of 90 on service api against the configured
threshold 85 is an anomaly (strictly above). -/
theorem C2_strict_threshold_witness :
    get_threshold thresholds "cpu_pct" (some "api") = .ok (some 85) ∧
    row_is_anomaly thresholds c2_row = decide ((85 : ℚ) < 90) ∧
    row_is_anomaly thresholds c2_row = true ∧
    (c2_row ∈ c2_df.rows.filter (row_is_anomaly thresholds) ↔ (85 : ℚ) < 90) := by
  have h := C2_strict_threshold thresholds c2_row "cpu_pct" "api" 90 85 rfl rfl rfl rfl
  refine ⟨rfl, h.1, ?_, (h.2.2 c2_df (by decide) (by simp [c2_df])).2⟩
  rw [h.1]
  decide

/-- C1: for every anomaly row and log row with valid timestamps, `correlate`
emits their correlation record iff the absolute time difference is at most
the window; the boundary case is included. -/
theorem C1_correlation_window_iff (window : ℚ) (mdf : MetricDF) (ldf : LogDF)
    (hmc : corrMetricCols.all (fun c => mdf.cols.contains c) = true)
    (hlc : corrLogCols.all (fun c => ldf.cols.contains c) = true)
    (m : MetricRow) (l : LogRow) (mt lt : ℚ)
    (hm : m ∈ mdf.rows) (hl : l ∈ ldf.rows)
    (hmt : m.time_stamp = some mt) (hlt : l.timestamp = some lt) :
    correlate window mdf ldf = .ok (pairCorrelations window mdf.rows ldf.rows) ∧
    (mkCorrelation m l mt lt ∈ pairCorrelations window mdf.rows ldf.rows ↔
      |mt - lt| ≤ window) := by
  constructor
  · obtain ⟨mcols, mrows⟩ := mdf
    obtain ⟨lcols, lrows⟩ := ldf
    cases mrows with
    | nil => exact absurd hm (List.not_mem_nil m)
    | cons a as =>
      cases lrows with
      | nil => exact absurd hl (List.not_mem_nil l)
      | cons b bs => simp_all [correlate]
  · constructor
    · intro hmem
      have hle := time_diff_le_of_mem hmem
      rw [show (mkCorrelation m l mt lt).time_diff_seconds = py_abs (mt - lt) from rfl,
        py_abs_eq_abs] at hle
      exact hle
    · intro hw
      have hcond : py_abs (mt - lt) ≤ window := by rw [py_abs_eq_abs]; exact hw
      apply List.mem_flatMap.mpr
      refine ⟨m, hm, ?_⟩
      rw [hmt]
      apply List.mem_filterMap.mpr
      refine ⟨l, hl, ?_⟩
      rw [hlt]
      show (if py_abs (mt - lt) ≤ window then some (mkCorrelation m l mt lt) else none) =
        some (mkCorrelation m l mt lt)
      rw [if_pos hcond]

/-- C1 witness: with the configured 5-second window, a metric anomaly at
t=100 and a log error at t=105 sit exactly on the boundary and are
correlated. -/
theorem C1_correlation_window_iff_witness :
    correlate correlation_window c1_mdf c1_ldf =
      .ok (pairCorrelations correlation_window c1_mdf.rows c1_ldf.rows) ∧
    (mkCorrelation c1_metric_row c1_log_row 100 105 ∈
        pairCorrelations correlation_window c1_mdf.rows c1_ldf.rows ↔
      |(100 : ℚ) - 105| ≤ correlation_window) ∧
    mkCorrelation c1_metric_row c1_log_row 100 105 ∈
      pairCorrelations correlation_window c1_mdf.rows c1_ldf.rows := by
  have h := C1_correlation_window_iff correlation_window c1_mdf c1_ldf (by decide) (by decide)
    c1_metric_row c1_log_row 100 105 (by simp [c1_mdf]) (by simp [c1_ldf]) rfl rfl
  refine ⟨h.1, h.2, h.2.mpr ?_⟩
  rw [← py_abs_eq_abs]
  show py_abs ((100 : ℚ) - 105) ≤ 5
  with_unfolding_all decide

/-- Helper for C3: when every attempt up to index `i + k` fails, the retry
loop performs all `k + 1` remaining attempts with `k` sleeps and no
response. -/
theorem make_request_loop_all_fail (outcome : Nat → Option ApiResponse) :
    ∀ (k i : Nat), (∀ j, j ≤ i + k → outcome j = none) →
      make_request_loop outcome i k = { attempts := k + 1, sleeps := k, result := none }
  | 0, i => fun h => by
    simp [make_request_loop, h i (by omega)]
  | k + 1, i => fun h => by
    have hi : outcome i = none := h i (by omega)
    have ih := make_request_loop_all_fail outcome k (i + 1) (fun j hj => h j (by omega))
    simp [make_request_loop, hi, ih]

/-- C3: with `retry_attempts = n` configured and every attempt failing (the
timeout, connection-error, HTTP-error and generic handlers all behave
identically), `_make_request` issues exactly n+1 requests with a sleep
between consecutive attempts and none after the last, then raises APIError;
`get_recommendations` converts this to `None` (fallback enabled) and the
resolver consequently does not use the REMOTE tier. -/
theorem C3_remote_retry_count (n : Nat) (outcome : Nat → Option ApiResponse)
    (hfail : ∀ i, i ≤ n → outcome i = none) :
    make_request n outcome = { attempts := n + 1, sleeps := n, result := none } ∧
    get_recommendations true n outcome = .ok none ∧
    ∀ (llm : String → Nat → Option String) (service : String) (anomaly_count : Nat),
      resolutionTier
        { llm_only := false
          remote := fun _ _ => get_recommendations true n outcome
          llm := llm } service anomaly_count ≠ Tier.remote := by
  have h1 : make_request n outcome = { attempts := n + 1, sleeps := n, result := none } :=
    make_request_loop_all_fail outcome n 0 (fun j hj => hfail j (by omega))
  have h2 : get_recommendations true n outcome = .ok none := by
    unfold get_recommendations
    rw [h1]
    rfl
  refine ⟨h1, h2, ?_⟩
  intro llm service anomaly_count
  have hred : resolutionTier
      { llm_only := false
        remote := fun _ _ => get_recommendations true n outcome
        llm := llm } service anomaly_count =
      match py_truthy_str (llm service anomaly_count) with
      | some _ => Tier.llm
      | none => Tier.localCfg := by
    unfold resolutionTier
    dsimp only
    rw [h2]
    rfl
  rw [hred]
  cases py_truthy_str (llm service anomaly_count) <;> simp

/-- C3 witness: retry_attempts=2 with three consecutive timeouts yields
exactly 3 attempts, 2 sleeps, an APIError converted to None, and a
resolution that is not REMOTE. -/
theorem C3_remote_retry_count_witness :
    make_request 2 (fun _ => none) = { attempts := 3, sleeps := 2, result := none } ∧
    get_recommendations true 2 (fun _ => none) = .ok none ∧
    resolutionTier
      { llm_only := false
        remote := fun _ _ => get_recommendations true 2 (fun _ => none)
        llm := fun _ _ => none } "api" 3 ≠ Tier.remote := by
  have h := C3_remote_retry_count 2 (fun _ => none) (fun _ _ => rfl)
  exact ⟨h.1, h.2.1, h.2.2 (fun _ _ => none) "api" 3⟩

/-- C4: for every environment (any combination of REMOTE and LLM failures,
including exceptions, parse failures, missing fields, empty strings and
disabled tiers) and every service and anomaly count, the single-service
resolver returns a non-empty string; the LOCAL table itself never returns an
empty string, even for an unconfigured service.  The resolver is a total
function: every exception of the source is caught inside it. -/
theorem C4_resolver_total_nonempty (env : ResolverEnv) (service : String)
    (anomaly_count : Nat) :
    get_recommendation_with_fallback env service anomaly_count ≠ "" ∧
    get_recommendation service ≠ "" := by
  refine ⟨?_, get_recommendation_ne_empty service⟩
  unfold get_recommendation_with_fallback
  cases hapi : (if env.llm_only then none
      else
        match env.remote service anomaly_count with
        | .ok o => py_truthy_str o
        | .error _ => none : Option String) with
  | some rec =>
    simp only [hapi]
    by_cases hmode : env.llm_only
    · rw [if_pos hmode] at hapi
      cases hapi
    · rw [if_neg hmode] at hapi
      cases hrem : env.remote service anomaly_count with
      | ok o => rw [hrem] at hapi; exact py_truthy_str_ne_empty hapi
      | error e => rw [hrem] at hapi; cases hapi
  | none =>
    simp only [hapi]
    cases hllm : py_truthy_str (env.llm service anomaly_count) with
    | some rec => exact py_truthy_str_ne_empty hllm
    | none => exact get_recommendation_ne_empty service

/-- C5 counterexample: with service b first-seen before service a and equal
anomaly counts, the ranking lists a before b — pandas groupby sorts its keys,
so ties do not follow first-seen input order.  This two-element ranking is
inside NumPy quicksort's small-array insertion-sort regime, so the concrete
behaviour at this input is determined. -/
theorem C5_counterexample :
    c5_rows.map (fun r => r.metric_service) = [some "b", some "a"] ∧
    service_rankings c5_rows = [("a", 1), ("b", 1)] ∧
    service_rankings c5_rows ≠ [("b", 1), ("a", 1)] := by
  refine ⟨rfl, by decide, by decide⟩

/-- C5 amended: the ranking carries one entry per distinct non-null
metric_service with its occurrence count — it is a permutation of the
group-by result, whose keys are emitted in ascending code-point order
without duplicates — and is ordered by descending anomaly_count.  The
relative order of services with equal counts is not guaranteed by the
program for arbitrary inputs: the default quicksort kind is unstable past
NumPy's small-array cutoff, and in particular first-seen input order is not
preserved (see the counterexample). -/
theorem C5_ranking_grouped_sorted (rows : List Correlation) :
    List.Perm (service_rankings rows)
      (groupby_size (rows.filterMap fun r => r.metric_service)) ∧
    (service_rankings rows).Sorted by_count_desc ∧
    ((groupby_size (rows.filterMap fun r => r.metric_service)).map Prod.fst).Sorted
      py_str_le ∧
    ((groupby_size (rows.filterMap fun r => r.metric_service)).map Prod.fst).Nodup := by
  have hkeys : (groupby_size (rows.filterMap fun r => r.metric_service)).map Prod.fst =
      (rows.filterMap fun r => r.metric_service).dedup.insertionSort py_str_le := by
    unfold groupby_size
    rw [List.map_map]
    exact List.map_id _
  refine ⟨List.perm_insertionSort by_count_desc _,
    List.sorted_insertionSort by_count_desc _, ?_, ?_⟩
  · rw [hkeys]
    exact List.sorted_insertionSort py_str_le _
  · rw [hkeys]
    exact ((List.perm_insertionSort py_str_le _).nodup_iff).mpr (List.nodup_dedup _)

/-- C6 counterexample: the bulk resolver returns a partial LLM result as-is;
service b is in the input batch but gets no recommendation at all, so the
returned mapping does not cover every input service. -/
theorem C6_counterexample :
    ({ service := some "b", anomaly_count := some 2, metric_name := none,
       metric_value := none } : SvcData) ∈ c6_services ∧
    get_bulk_recommendations_with_fallback c6_env c6_services =
      [("a", "Scale out service a.")] ∧
    ¬ ("b" ∈ (get_bulk_recommendations_with_fallback c6_env c6_services).map Prod.fst) := by
  refine ⟨by decide, by decide, by decide⟩

/-- C6 amended: the bulk resolver returns the first non-empty tier result
wholesale, so services left unresolved by a tier that resolved anything are
dropped rather than continued down the chain; full coverage holds exactly
when the REMOTE call fails (as it always does in the source, the bulk method
being defined on the wrong class) and the LLM pass resolves nothing, in
which case every service with a truthy name receives its LOCAL
recommendation. -/
theorem C6_bulk_local_coverage (env : BulkEnv) (services_data : List SvcData)
    (hremote : env.remote_bulk = .error ())
    (hllm : ∀ item ∈ services_data, py_truthy_str (env.llm item) = none) :
    ∀ sd ∈ services_data, ∀ s, sd.service = some s → s ≠ "" →
      (s, get_recommendation s) ∈ get_bulk_recommendations_with_fallback env services_data := by
  intro sd hsd s hserv hs
  unfold get_bulk_recommendations_with_fallback
  rw [hremote]
  have hres : (services_data.filterMap fun item =>
      match item.service with
      | none => none
      | some s =>
        if s = "" then none
        else (py_truthy_str (env.llm item)).map (fun rec => (s, rec))) = [] := by
    rw [List.filterMap_eq_nil_iff]
    intro item hitem
    rw [hllm item hitem]
    cases item.service with
    | none => rfl
    | some s₀ => simp
  cases hmode : env.llm_only
  · dsimp only
    rw [hres]
    apply List.mem_filterMap.mpr
    refine ⟨sd, hsd, ?_⟩
    rw [hserv]
    simp [hs]
  · dsimp only
    rw [hres]
    apply List.mem_filterMap.mpr
    refine ⟨sd, hsd, ?_⟩
    rw [hserv]
    simp [hs]

/-- C6 witness: with the REMOTE bulk call failing and an LLM that resolves
nothing, the single service in the batch receives its LOCAL recommendation. -/
theorem C6_bulk_local_coverage_witness :
    c6w_env.remote_bulk = .error () ∧
    ("api", get_recommendation "api") ∈
      get_bulk_recommendations_with_fallback c6w_env c6w_services :=
  ⟨rfl, C6_bulk_local_coverage c6w_env c6w_services rfl (fun _ _ => rfl)
    { service := some "api", anomaly_count := some 1, metric_name := none, metric_value := none }
    (by decide) "api" rfl (by decide)⟩

/-- C7 counterexample: the severity field of the mock response at
anomaly_count 1 is low, not very-low — the response severity enum has only
three values. -/
theorem C7_counterexample :
    mock_severity 1 = "low" ∧ mock_severity 1 ≠ "very-low" :=
  ⟨by decide, by decide⟩

/-- C7 amended: the response severity field is high for count at least 10,
medium for at least 5 and low otherwise, monotonically in the count, while
the four-way split (with a very-low bucket for count below 2) governs only
which recommendation string is selected; in particular 12 maps to high, 7 to
medium, 3 to low and 1 to low (severity field) and to the very-low
recommendation slot (index 3). -/
theorem C7_severity_monotone (a b : Int) (hab : a ≤ b) :
    severityRank (mock_severity a) ≤ severityRank (mock_severity b) ∧
    mock_rec_index b ≤ mock_rec_index a ∧
    mock_severity 12 = "high" ∧ mock_severity 7 = "medium" ∧
    mock_severity 3 = "low" ∧ mock_severity 1 = "low" ∧
    mock_rec_index 12 = 0 ∧ mock_rec_index 7 = 1 ∧
    mock_rec_index 3 = 2 ∧ mock_rec_index 1 = 3 := by
  have hrank : ∀ x : Int, severityRank (mock_severity x) =
      if x ≥ 10 then 2 else if x ≥ 5 then 1 else 0 := by
    intro x
    unfold mock_severity severityRank
    split_ifs <;> simp_all
  refine ⟨?_, ?_, by decide, by decide, by decide, by decide,
    by decide, by decide, by decide, by decide⟩
  · rw [hrank a, hrank b]
    split_ifs <;> omega
  · unfold mock_rec_index
    split_ifs <;> omega

/-- C7 witness: the monotone derivation applied at counts 3 and 7. -/
theorem C7_severity_monotone_witness :
    (3 : Int) ≤ 7 ∧
    severityRank (mock_severity 3) ≤ severityRank (mock_severity 7) ∧
    mock_rec_index 7 ≤ mock_rec_index 3 :=
  ⟨by decide, (C7_severity_monotone 3 7 (by decide)).1,
   (C7_severity_monotone 3 7 (by decide)).2.1⟩

end WarRoom
